import Mathlib

/-!
Verification development for the fluid background renderer
(`src/assets/fluid-bg.ts`): shallow embedding of the unit resolver,
motion model, blob registry, frame scheduler and engine facade,
together with theorems settling the specification claims.

Modelling conventions:
* JavaScript finite numbers are modelled as `ℚ` (for state, scheduling
  and unit resolution, where all arithmetic is exact) or as `ℝ` (for the
  trigonometric motion model).  A JavaScript number that may be `NaN` or
  `±Infinity` is modelled by the sum type `JSNum`.
* Strings are Lean `String`s; character-level work is done on `List Char`.
* The canvas raster is abstracted to whether it was last cleared to full
  transparency (`blank`) or holds rendered frame output (`frame`).
-/

namespace FluidBg

attribute [local semireducible] Rat.mul Rat.add Rat.sub Rat.inv Rat.ofScientific

/-- A JavaScript number: `NaN`, signed infinity, or a finite value
(modelled exactly as a rational). -/
inductive JSNum where
  | nan : JSNum
  | inf (neg : Bool) : JSNum
  | fin (q : ℚ) : JSNum
deriving DecidableEq, Repr

/-- JavaScript whitespace characters relevant to `trim`/`parseFloat`
(the common ASCII subset). -/
def isJsWs (c : Char) : Bool :=
  c = ' ' || c = '\t' || c = '\n' || c = '\r' || c = '\x0b' || c = '\x0c'

/-- `String.prototype.trim` on a character list: strip whitespace from
both ends. -/
def jsTrim (cs : List Char) : List Char :=
  ((cs.dropWhile isJsWs).reverse.dropWhile isJsWs).reverse

/-- ASCII decimal digit test. -/
def isDigit (c : Char) : Bool := '0' ≤ c && c ≤ '9'

/-- Accumulate a digit list into a natural number (most significant
first). -/
def digitsToNat : List Char → ℕ → ℕ
  | [], acc => acc
  | c :: cs, acc => digitsToNat cs (acc * 10 + (c.toNat - '0'.toNat))

/-- The sign prefix of a JavaScript numeric literal: returns the sign
and the remaining characters. -/
def parseSign : List Char → ℤ × List Char
  | '+' :: cs => (1, cs)
  | '-' :: cs => (-1, cs)
  | cs => (1, cs)

/-- The optional exponent part of a JavaScript numeric literal
(`e`/`E`, optional sign, digits); an incomplete exponent contributes
nothing, matching `parseFloat`'s longest-valid-prefix rule. -/
def parseExponent : List Char → ℤ
  | e :: r =>
      if e = 'e' ∨ e = 'E' then
        let sr := parseSign r
        let eds := sr.2.takeWhile isDigit
        if eds.isEmpty then 0 else sr.1 * (digitsToNat eds 0 : ℤ)
      else 0
  | [] => 0

/-- JavaScript `parseFloat`: skip leading whitespace, read an optional
sign, then the longest prefix that is a decimal literal (or the literal
`Infinity`); yield `NaN` when no digits are found. -/
def parseFloat (cs0 : List Char) : JSNum :=
  let cs1 := cs0.dropWhile isJsWs
  let sc := parseSign cs1
  if ("Infinity".data).isPrefixOf sc.2 then JSNum.inf (sc.1 < 0)
  else
    let ds := sc.2.takeWhile isDigit
    let r1 := sc.2.dropWhile isDigit
    let fr := match r1 with
      | '.' :: r => (r.takeWhile isDigit, r.dropWhile isDigit)
      | _ => (([] : List Char), r1)
    if ds.isEmpty && fr.1.isEmpty then JSNum.nan
    else
      let mant : ℚ := (digitsToNat ds 0 : ℚ) + (digitsToNat fr.1 0 : ℚ) / 10 ^ fr.1.length
      JSNum.fin ((sc.1 : ℚ) * mant * 10 ^ parseExponent fr.2)

/-- Multiplication of a finite JavaScript number by a possibly
non-finite one, with IEEE sign/NaN propagation (`0 * ±∞ = NaN`). -/
def JSNum.mulQ (q : ℚ) : JSNum → JSNum
  | .nan => .nan
  | .inf neg => if q = 0 then .nan else .inf (xor neg (q < 0))
  | .fin x => .fin (q * x)

/-- Division of a JavaScript number by the literal 100 (finite, nonzero:
infinities and NaN propagate). -/
def JSNum.div100 : JSNum → JSNum
  | .nan => .nan
  | .inf neg => .inf neg
  | .fin x => .fin (x / 100)

/-- The viewport dimensions record handed to the resolver:
`{ w, h, vMax }` (`fluid-bg.ts`, `render`, line 247). -/
structure Dims where
  w : ℚ
  h : ℚ
  vMax : ℚ
deriving DecidableEq, Repr

/-- `render` builds its dims as `{w: cssW, h: cssH, vMax: Math.max(cssW, cssH)}`. -/
def mkDims (w h : ℚ) : Dims := ⟨w, h, max w h⟩

/-- Resolution axis tag: `'x' | 'y' | 'vmax'`. -/
inductive Axis where
  | x | y | vmax
deriving DecidableEq, Repr

/-- The `number | string` input of `unitToPx`. -/
inductive UnitVal where
  | num (n : ℚ)
  | str (s : String)

/-- Character-list ends-with test used to model `String.endsWith`. -/
def endsWithChars (cs sfx : List Char) : Bool := sfx.isSuffixOf cs

/-- `unitToPx` (`fluid-bg.ts` lines 323–333): number inputs pass
through; strings are trimmed and dispatched on their unit suffix,
falling back to a bare `parseFloat` with a `NaN ↦ 0` guard. -/
def unitToPx (v : UnitVal) (dims : Dims) (axis : Axis) : JSNum :=
  match v with
  | .num n => .fin n
  | .str s =>
    let cs := jsTrim s.data
    if endsWithChars cs "px".data then parseFloat cs
    else if endsWithChars cs "%".data then
      JSNum.mulQ (if axis = Axis.y then dims.h else dims.w) (parseFloat cs).div100
    else if endsWithChars cs "vw".data then JSNum.mulQ dims.w (parseFloat cs).div100
    else if endsWithChars cs "vh".data then JSNum.mulQ dims.h (parseFloat cs).div100
    else if endsWithChars cs "vmax".data then JSNum.mulQ dims.vMax (parseFloat cs).div100
    else
      match parseFloat cs with
      | .nan => .fin 0
      | n => n

/-- `resolveDiameter` (`fluid-bg.ts` lines 319–321): resolve the
diameter expression with the `'vmax'` axis tag. -/
def resolveDiameter (diameter : String) (dims : Dims) : JSNum :=
  unitToPx (.str diameter) dims .vmax

/-! ## Claims C1 and C2: the unit resolver -/

/-- C1 (counterexample): the claim "every string whose unit suffix is
unrecognized or whose numeric part is unparsable resolves to 0" is false
on the code.  `"50zz"` has an unrecognized suffix yet resolves to its
numeric prefix `50`, and `"xpx"` has the recognized suffix `px` with an
unparsable numeric part and resolves to `NaN`, not `0`. -/
theorem claim_C1_counterexample :
    unitToPx (.str "50zz") ⟨3, 4, 4⟩ .x = JSNum.fin 50 ∧
    JSNum.fin (50 : ℚ) ≠ JSNum.fin 0 ∧
    unitToPx (.str "xpx") ⟨3, 4, 4⟩ .x = JSNum.nan := by
  refine ⟨by decide, by decide, by decide⟩

/-- C1 (amended): resolution never raises; `resolve("bogus", dims, axis) = 0`
for all dims and axes; and more generally any string that reaches the
fall-through branch (no recognized unit suffix) with an unparsable
numeric part resolves to 0.  (A recognized-suffix string with an
unparsable numeric part instead yields `NaN`, per the counterexample.) -/
theorem claim_C1_theorem :
    (∀ (dims : Dims) (axis : Axis), unitToPx (.str "bogus") dims axis = JSNum.fin 0) ∧
    (∀ (s : String) (dims : Dims) (axis : Axis),
      endsWithChars (jsTrim s.data) "px".data = false →
      endsWithChars (jsTrim s.data) "%".data = false →
      endsWithChars (jsTrim s.data) "vw".data = false →
      endsWithChars (jsTrim s.data) "vh".data = false →
      endsWithChars (jsTrim s.data) "vmax".data = false →
      parseFloat (jsTrim s.data) = JSNum.nan →
      unitToPx (.str s) dims axis = JSNum.fin 0) := by
  have hgen : ∀ (s : String) (dims : Dims) (axis : Axis),
      endsWithChars (jsTrim s.data) "px".data = false →
      endsWithChars (jsTrim s.data) "%".data = false →
      endsWithChars (jsTrim s.data) "vw".data = false →
      endsWithChars (jsTrim s.data) "vh".data = false →
      endsWithChars (jsTrim s.data) "vmax".data = false →
      parseFloat (jsTrim s.data) = JSNum.nan →
      unitToPx (.str s) dims axis = JSNum.fin 0 := by
    intro s dims axis h1 h2 h3 h4 h5 h6
    unfold unitToPx
    simp only [h1, h2, h3, h4, h5, h6]
    simp
  refine ⟨fun dims axis => ?_, hgen⟩
  exact hgen "bogus" dims axis (by decide) (by decide) (by decide) (by decide)
    (by decide) (by decide)

/-- C1 (witness): the amended theorem applied at the concrete input
`"bogus"` with dims `⟨7, 5, 7⟩` and axis `y`. -/
theorem claim_C1_witness : unitToPx (.str "bogus") ⟨7, 5, 7⟩ .y = JSNum.fin 0 :=
  claim_C1_theorem.2 "bogus" ⟨7, 5, 7⟩ .y (by decide) (by decide) (by decide)
    (by decide) (by decide) (by decide)

/-- C2 (counterexample): the claim "a percentage-form diameter resolves
to that fraction of max(width, height)" is false on the code: at a
100×200 viewport, `resolveDiameter "50%"` yields `50` — half the
*width* — not `100 = (50/100)·max(100, 200)`. -/
theorem claim_C2_counterexample :
    resolveDiameter "50%" (mkDims 100 200) = JSNum.fin 50 ∧
    JSNum.fin (50 : ℚ) ≠ JSNum.fin ((50 / 100) * max (100 : ℚ) 200) := by
  refine ⟨by decide, by decide⟩

/-- C2 (amended): the diameter expression is resolved with the `'vmax'`
axis tag against dims whose `vMax` field is `max(width, height)`; a
`vmax`-unit diameter therefore resolves to that fraction of
max(width, height), but a percentage-form diameter resolves to that
fraction of the *width* (the `%` rule uses `dims.w` for every axis
other than `y`). -/
theorem claim_C2_theorem (w h : ℚ) :
    resolveDiameter "50vmax" (mkDims w h) = JSNum.fin (max w h * (50 / 100)) ∧
    resolveDiameter "50%" (mkDims w h) = JSNum.fin (w * (50 / 100)) := by
  constructor
  · unfold resolveDiameter unitToPx
    simp only [show endsWithChars (jsTrim "50vmax".data) "px".data = false from by decide,
      show endsWithChars (jsTrim "50vmax".data) "%".data = false from by decide,
      show endsWithChars (jsTrim "50vmax".data) "vw".data = false from by decide,
      show endsWithChars (jsTrim "50vmax".data) "vh".data = false from by decide,
      show endsWithChars (jsTrim "50vmax".data) "vmax".data = true from by decide,
      show parseFloat (jsTrim "50vmax".data) = JSNum.fin 50 from by decide]
    simp [JSNum.mulQ, JSNum.div100, mkDims]
  · unfold resolveDiameter unitToPx
    simp only [show endsWithChars (jsTrim "50%".data) "px".data = false from by decide,
      show endsWithChars (jsTrim "50%".data) "%".data = true from by decide,
      show parseFloat (jsTrim "50%".data) = JSNum.fin 50 from by decide]
    simp [JSNum.mulQ, JSNum.div100, mkDims]

/-! ## Motion model (render lines 253–263) -/

/-- `const TAU = Math.PI * 2` (`fluid-bg.ts` line 75). -/
noncomputable def TAU : ℝ := Real.pi * 2

/-- `DriftSpec`: four amplitude coefficients and a speed. -/
structure DriftSpec where
  ax : ℝ
  ay : ℝ
  sx : ℝ
  sy : ℝ
  speed : ℝ

/-- Drift x-offset (`fluid-bg.ts` line 253).  The source guards each
coefficient with `|| 0`, which on real-valued coefficients is the
identity (`x || 0` differs from `x` only at JavaScript `NaN`). -/
noncomputable def driftDx (d : DriftSpec) (t : ℝ) : ℝ :=
  d.ax * Real.sin (TAU * d.speed * t) + d.sx * Real.cos (TAU * d.speed * 0.7 * t)

/-- Drift y-offset (`fluid-bg.ts` line 254). -/
noncomputable def driftDy (d : DriftSpec) (t : ℝ) : ℝ :=
  d.ay * Real.cos (TAU * d.speed * t) + d.sy * Real.sin (TAU * d.speed * 0.7 * t)

/-- `BreathSpec` (non-null case): scale range, opacity range, speed,
phase. -/
structure BreathSpec where
  scale : ℝ × ℝ
  opacity : ℝ × ℝ
  speed : ℝ
  phase : ℝ

/-- `lerp` (`fluid-bg.ts` line 338). -/
def lerp (a b t : ℝ) : ℝ := a + (b - a) * t

/-- The breath oscillator `s01` (`fluid-bg.ts` line 260); `phase || 0`
is again the identity on real phases. -/
noncomputable def breathS01 (b : BreathSpec) (t : ℝ) : ℝ :=
  0.5 + 0.5 * Real.sin (b.phase * TAU + TAU * b.speed * t)

/-- The breath scale/opacity multiplier pair (`fluid-bg.ts` lines
257–263): `(1, 1)` when the spec is absent. -/
noncomputable def breathMuls (br : Option BreathSpec) (t : ℝ) : ℝ × ℝ :=
  match br with
  | none => (1, 1)
  | some b =>
    (lerp b.scale.1 b.scale.2 (breathS01 b t),
     lerp b.opacity.1 b.opacity.2 (breathS01 b t))

/-! ## Claims C3 and C6: periodicity and boundedness of the motion state -/

/-- C3 (counterexample): the drift offset is *not* `1/s`-periodic.  For
the drift spec `(ax, ay, sx, sy, speed) = (0, 0, 1, 0, 1)` the states at
`t = 0` and `t = 0 + 1/1` differ by at least 1 — far beyond any floating
tolerance — because the detuned cosine component advances by `1.4π`
rather than a full turn. -/
theorem claim_C3_counterexample :
    driftDx ⟨0, 0, 1, 0, 1⟩ 0 - driftDx ⟨0, 0, 1, 0, 1⟩ (0 + 1 / 1) ≥ 1 := by
  unfold driftDx TAU
  norm_num
  have hπ := Real.pi_pos
  have hc : Real.cos (Real.pi * 2 * 0.7) ≤ 0 := by
    apply Real.cos_nonpos_of_pi_div_two_le_of_le <;> nlinarith
  nlinarith [hc]

/-- C3 (amended): the *breath* multipliers are `1/s`-periodic, while the
drift offset is `10/s`-periodic (the detuned `0.7·speed` component needs
ten base periods to complete a whole number — seven — of turns). -/
theorem claim_C3_theorem (d : DriftSpec) (b : BreathSpec) (t : ℝ)
    (hd : d.speed ≠ 0) (hb : b.speed ≠ 0) :
    driftDx d (t + 10 / d.speed) = driftDx d t ∧
    driftDy d (t + 10 / d.speed) = driftDy d t ∧
    breathMuls (some b) (t + 1 / b.speed) = breathMuls (some b) t := by
  have e1 : TAU * d.speed * (t + 10 / d.speed) =
      TAU * d.speed * t + ((10 : ℤ) : ℝ) * (2 * Real.pi) := by
    unfold TAU; field_simp; ring
  have e2 : TAU * d.speed * 0.7 * (t + 10 / d.speed) =
      TAU * d.speed * 0.7 * t + ((7 : ℤ) : ℝ) * (2 * Real.pi) := by
    unfold TAU; field_simp; ring
  have e3 : b.phase * TAU + TAU * b.speed * (t + 1 / b.speed) =
      (b.phase * TAU + TAU * b.speed * t) + ((1 : ℤ) : ℝ) * (2 * Real.pi) := by
    unfold TAU; field_simp; ring
  refine ⟨?_, ?_, ?_⟩
  · unfold driftDx
    rw [e1, e2, Real.sin_add_int_mul_two_pi, Real.cos_add_int_mul_two_pi]
  · unfold driftDy
    rw [e1, e2, Real.sin_add_int_mul_two_pi, Real.cos_add_int_mul_two_pi]
  · simp only [breathMuls, breathS01]
    rw [e3, Real.sin_add_int_mul_two_pi]

/-- C3 (witness): the amended periodicity at the concrete specs with
speed 1 and `t = 0`. -/
theorem claim_C3_witness :
    driftDx ⟨1, 1, 1, 1, 1⟩ (0 + 10 / 1) = driftDx ⟨1, 1, 1, 1, 1⟩ 0 ∧
    driftDy ⟨1, 1, 1, 1, 1⟩ (0 + 10 / 1) = driftDy ⟨1, 1, 1, 1, 1⟩ 0 ∧
    breathMuls (some ⟨(0, 1), (0, 1), 1, 0⟩) (0 + 1 / 1) =
      breathMuls (some ⟨(0, 1), (0, 1), 1, 0⟩) 0 :=
  claim_C3_theorem ⟨1, 1, 1, 1, 1⟩ ⟨(0, 1), (0, 1), 1, 0⟩ 0 one_ne_zero one_ne_zero

/-- C6 (confirmed): the drift offset is bounded for every spec and every
time: `|dx| ≤ |ax| + |sx|` and `|dy| ≤ |ay| + |sy|`. -/
theorem claim_C6_theorem (d : DriftSpec) (t : ℝ) :
    |driftDx d t| ≤ |d.ax| + |d.sx| ∧ |driftDy d t| ≤ |d.ay| + |d.sy| := by
  constructor
  · unfold driftDx
    refine (abs_add _ _).trans (add_le_add ?_ ?_)
    · rw [abs_mul]
      exact mul_le_of_le_one_right (abs_nonneg _) (Real.abs_sin_le_one _)
    · rw [abs_mul]
      exact mul_le_of_le_one_right (abs_nonneg _) (Real.abs_cos_le_one _)
  · unfold driftDy
    refine (abs_add _ _).trans (add_le_add ?_ ?_)
    · rw [abs_mul]
      exact mul_le_of_le_one_right (abs_nonneg _) (Real.abs_cos_le_one _)
    · rw [abs_mul]
      exact mul_le_of_le_one_right (abs_nonneg _) (Real.abs_sin_le_one _)

/-! ## Blob registry (`fluid-bg.ts` lines 139–152, 300–306)

A JavaScript `Map` is modelled as an insertion-ordered association
list with unique keys.  At runtime a stored blob may be missing fields:
the `updateBlob` fallback casts a `Partial<BlobConfig>` to `BlobConfig`,
so the stored record type has every field optional (absent = the field
was not present on the object). -/

/-- `LayerSpec`: an RGB triple and three gradient alphas. -/
structure LayerSpec where
  color : ℚ × ℚ × ℚ
  centerAlpha : ℚ
  midAlpha : ℚ
  edgeAlpha : ℚ

/-- `CenterSpec`: either a function of the dims or a symbolic
coordinate pair. -/
inductive CenterSpec where
  | computed (f : Dims → ℚ × ℚ)
  | symbolic (x y : String)

/-- `BlobConfig`: the full (all fields present) blob record required by
the typed `addBlob` API. -/
structure BlobConfig where
  id : String
  diameter : String
  center : CenterSpec
  layers : List LayerSpec
  opacity : ℚ
  parallaxScale : ℚ
  drift : DriftSpec
  breath : Option BreathSpec

/-- `Partial<BlobConfig>`: every field optional.  The inner `Option` of
`breath` is the spec-level nullability; the outer one is partiality. -/
structure PartialBlob where
  id : Option String := none
  diameter : Option String := none
  center : Option CenterSpec := none
  layers : Option (List LayerSpec) := none
  opacity : Option ℚ := none
  parallaxScale : Option ℚ := none
  drift : Option DriftSpec := none
  breath : Option (Option BreathSpec) := none

/-- View a full `BlobConfig` as the runtime record shape. -/
def toPartial (c : BlobConfig) : PartialBlob :=
  ⟨some c.id, some c.diameter, some c.center, some c.layers,
   some c.opacity, some c.parallaxScale, some c.drift, some c.breath⟩

/-- `InternalBlob`: the stored record plus the `_diameterPx` runtime
cache field. -/
structure InternalBlob where
  cfg : PartialBlob
  diameterPx : ℚ

/-- `materialize` (`fluid-bg.ts` lines 300–306): spread the config and
set `_diameterPx` to 0. -/
def materialize (cfg : PartialBlob) : InternalBlob := ⟨cfg, 0⟩

/-- The blob registry: insertion-ordered key/value pairs. -/
abbrev Registry := List (String × InternalBlob)

/-- `Map.get`. -/
def mapGet (m : Registry) (k : String) : Option InternalBlob :=
  match m with
  | [] => none
  | p :: rest => if p.1 = k then some p.2 else mapGet rest k

/-- `Map.set`: replace in place when the key exists, else append
(insertion order). -/
def mapSet (m : Registry) (k : String) (v : InternalBlob) : Registry :=
  match m with
  | [] => [(k, v)]
  | p :: rest => if p.1 = k then (k, v) :: rest else p :: mapSet rest k v

/-- `Map.delete`. -/
def mapDelete (m : Registry) (k : String) : Registry :=
  match m with
  | [] => []
  | p :: rest => if p.1 = k then rest else p :: mapDelete rest k

/-- JavaScript truthiness of the optional `id` field: present and
non-empty. -/
def truthyStr (o : Option String) : Bool :=
  match o with
  | some s => !(s = "")
  | none => false

/-- `addBlob` (`fluid-bg.ts` lines 140–143): materialize and store under
the record's own id.  The typed public API always supplies an id; the
`getD ""` default is unreachable from the source's call sites. -/
def addBlob (m : Registry) (cfg : PartialBlob) : Registry :=
  let b := materialize cfg
  mapSet m (b.cfg.id.getD "") b

/-- The spread merge `{ ...prev, ...cfg, id: prev.id }`
(`fluid-bg.ts` line 147): fields present on `cfg` win, the id is forced
back to the previous record's id. -/
def mergeBlob (prev cfg : PartialBlob) : PartialBlob :=
  { id := prev.id
    diameter := cfg.diameter.orElse fun _ => prev.diameter
    center := cfg.center.orElse fun _ => prev.center
    layers := cfg.layers.orElse fun _ => prev.layers
    opacity := cfg.opacity.orElse fun _ => prev.opacity
    parallaxScale := cfg.parallaxScale.orElse fun _ => prev.parallaxScale
    drift := cfg.drift.orElse fun _ => prev.drift
    breath := cfg.breath.orElse fun _ => prev.breath }

/-- `updateBlob` (`fluid-bg.ts` lines 144–149): merge onto an existing
record; on an unknown id, fall back to `addBlob` only when the partial
carries a truthy id, else do nothing. -/
def updateBlob (m : Registry) (id : String) (cfg : PartialBlob) : Registry :=
  match mapGet m id with
  | none => if truthyStr cfg.id then addBlob m cfg else m
  | some prev => mapSet m id (materialize (mergeBlob prev.cfg cfg))

/-- `removeBlob` (`fluid-bg.ts` lines 150–152). -/
def removeBlob (m : Registry) (id : String) : Registry := mapDelete m id

/-- One public registry operation. -/
inductive RegOp where
  | add (cfg : BlobConfig)
  | update (id : String) (cfg : PartialBlob)
  | remove (id : String)

/-- Apply one registry operation. -/
def applyOp (m : Registry) : RegOp → Registry
  | .add cfg => addBlob m (toPartial cfg)
  | .update id cfg => updateBlob m id cfg
  | .remove id => removeBlob m id

/-- Apply a sequence of registry operations to the initially empty
registry (constructor: `new Map()`). -/
def applyOps (ops : List RegOp) : Registry := ops.foldl applyOp []

/-! ## Registry helper lemmas -/

/-- A successful `mapGet` exhibits a member of the registry. -/
theorem mapGet_mem : ∀ {m : Registry} {k : String} {b : InternalBlob},
    mapGet m k = some b → (k, b) ∈ m := by
  intro m
  induction m with
  | nil => intro k b h; simp [mapGet] at h
  | cons p rest ih =>
    intro k b h
    obtain ⟨pk, pv⟩ := p
    by_cases hp : pk = k
    · subst hp
      simp [mapGet] at h
      simp [h]
    · simp [mapGet, hp] at h
      exact List.mem_cons_of_mem _ (ih h)

/-- Every member of `mapSet m k v` is an old member or the new pair. -/
theorem mem_mapSet : ∀ {m : Registry} {k : String} {v : InternalBlob}
    {x : String × InternalBlob}, x ∈ mapSet m k v → x ∈ m ∨ x = (k, v) := by
  intro m
  induction m with
  | nil => intro k v x h; simp [mapSet] at h; simp [h]
  | cons p rest ih =>
    intro k v x h
    by_cases hp : p.1 = k
    · simp [mapSet, hp] at h
      rcases h with h | h
      · right; exact h
      · left; exact List.mem_cons_of_mem _ h
    · simp [mapSet, hp] at h
      rcases h with h | h
      · left; simp [h]
      · rcases ih h with h' | h'
        · left; exact List.mem_cons_of_mem _ h'
        · right; exact h'

/-- `mapDelete` only removes members. -/
theorem mem_mapDelete : ∀ {m : Registry} {k : String}
    {x : String × InternalBlob}, x ∈ mapDelete m k → x ∈ m := by
  intro m
  induction m with
  | nil => intro k x h; simp [mapDelete] at h
  | cons p rest ih =>
    intro k x h
    by_cases hp : p.1 = k
    · simp [mapDelete, hp] at h
      exact List.mem_cons_of_mem _ h
    · simp [mapDelete, hp] at h
      rcases h with h | h
      · simp [h]
      · exact List.mem_cons_of_mem _ (ih h)

/-- Key/identifier coherence: every entry's key equals the stored
record's `id` field. -/
def KeyCoherent (m : Registry) : Prop := ∀ p ∈ m, p.2.cfg.id = some p.1

/-- Each registry operation preserves key/identifier coherence. -/
theorem keyCoherent_applyOp {m : Registry} (hm : KeyCoherent m) (op : RegOp) :
    KeyCoherent (applyOp m op) := by
  cases op with
  | add cfg =>
    intro p hp
    simp only [applyOp, addBlob] at hp
    rcases mem_mapSet hp with h | h
    · exact hm p h
    · subst h
      simp [materialize, toPartial]
  | update id cfg =>
    intro p hp
    simp only [applyOp, updateBlob] at hp
    cases hget : mapGet m id with
    | none =>
      rw [hget] at hp
      by_cases ht : truthyStr cfg.id
      · simp only [ht, if_true] at hp
        simp only [addBlob] at hp
        rcases mem_mapSet hp with h | h
        · exact hm p h
        · subst h
          cases hcid : cfg.id with
          | none => simp [truthyStr, hcid] at ht
          | some s => simp [materialize, hcid]
      · simp only [ht, if_false] at hp
        exact hm p hp
    | some prev =>
      rw [hget] at hp
      rcases mem_mapSet hp with h | h
      · exact hm p h
      · subst h
        have hprev : prev.cfg.id = some id := hm (id, prev) (mapGet_mem hget)
        simp [materialize, mergeBlob, hprev]
  | remove id =>
    intro p hp
    exact hm p (mem_mapDelete hp)

/-! ## Claims C5 and C9: registry semantics -/

/-- C5 (counterexample): on an unknown target id, a partial record that
*does* carry an identifier — the empty string, a usable registry key —
is nevertheless a no-op, because the source tests JavaScript truthiness
(`(cfg as any).id`), and `""` is falsy.  It does not behave as an add. -/
theorem claim_C5_counterexample :
    updateBlob [] "x" { id := some "" } = [] ∧
    addBlob [] { id := some "" } ≠ ([] : Registry) := by
  constructor
  · rfl
  · simp [addBlob, mapSet]

/-- C5 (amended): `updateBlob` on an id absent from the registry behaves
as an add of the partial record when that record carries a *truthy*
(present and non-empty) identifier, and otherwise — id absent or the
empty string — is a silent no-op leaving the registry unchanged. -/
theorem claim_C5_theorem (m : Registry) (id : String) (cfg : PartialBlob)
    (h : mapGet m id = none) :
    (∀ i, cfg.id = some i → i ≠ "" → updateBlob m id cfg = addBlob m cfg) ∧
    ((cfg.id = none ∨ cfg.id = some "") → updateBlob m id cfg = m) := by
  constructor
  · intro i hi hne
    unfold updateBlob
    rw [h]
    have ht : truthyStr cfg.id = true := by simp [truthyStr, hi, hne]
    simp [ht]
  · intro hcase
    unfold updateBlob
    rw [h]
    have ht : truthyStr cfg.id = false := by
      rcases hcase with h1 | h1 <;> simp [truthyStr, h1]
    simp [ht]

/-- C5 (witness): the amended theorem at concrete inputs — on the empty
registry, updating unknown id `"a"` with a partial carrying id `"b"`
adds it, and updating with an id-less partial is a no-op. -/
theorem claim_C5_witness :
    updateBlob [] "a" { id := some "b" } = addBlob [] { id := some "b" } ∧
    updateBlob [] "a" {} = ([] : Registry) :=
  ⟨(claim_C5_theorem [] "a" { id := some "b" } rfl).1 "b" rfl (by decide),
   (claim_C5_theorem [] "a" {} rfl).2 (Or.inl rfl)⟩

/-- C9 (confirmed): after any sequence of `addBlob` / `updateBlob` /
`removeBlob` operations starting from the empty registry, every entry's
map key equals the stored record's `id` field (in particular,
`updateBlob` on an existing id forces `id: prev.id`, so the stored
identifier never drifts from the key, even when the partial carries a
different id). -/
theorem claim_C9_theorem (ops : List RegOp) (k : String) (b : InternalBlob)
    (hmem : (k, b) ∈ applyOps ops) : b.cfg.id = some k := by
  have hfold : ∀ (l : List RegOp) (m : Registry),
      KeyCoherent m → KeyCoherent (l.foldl applyOp m) := by
    intro l
    induction l with
    | nil => intro m hm; exact hm
    | cons op rest ih =>
      intro m hm
      exact ih _ (keyCoherent_applyOp hm op)
  have hempty : KeyCoherent [] := by intro p hp; simp at hp
  exact hfold ops [] hempty (k, b) hmem

/-- A concrete full blob config used by the registry witnesses. -/
def blobA : BlobConfig :=
  ⟨"a", "10px", .symbolic "0" "0", [], 1, 0, ⟨0, 0, 0, 0, 0⟩, none⟩

/-- C9 (witness): the coherence theorem applied to the single-operation
sequence `[add blobA]` and the resulting entry at key `"a"`. -/
theorem claim_C9_witness : (materialize (toPartial blobA)).cfg.id = some "a" :=
  claim_C9_theorem [RegOp.add blobA] "a" (materialize (toPartial blobA))
    (by simp [applyOps, applyOp, addBlob, toPartial, materialize, mapSet, blobA])

/-! ## Engine facade (`fluid-bg.ts` lines 43–296)

The canvas raster is abstracted to a two-state surface: `blank` (the
backing store was last cleared to full transparency, as by `clearRect`
over the whole canvas) or `frame` (it holds the output of a rendered
frame: background fill and/or blob gradients). -/

/-- The abstract canvas raster state. -/
inductive SurfaceState where
  | blank
  | frame
deriving DecidableEq, Repr

/-- The engine's `state` record (`fluid-bg.ts` lines 59–73). -/
structure State where
  running : Bool
  alpha : ℚ
  blurPx : ℚ
  parallaxVmax : ℚ
  fpsCap : ℚ
  composite : String
  background : Option String
  dpr : ℚ
  cssW : ℚ
  cssH : ℚ
  lastFrameMs : ℚ
  startMs : ℚ
  desynchronized : Bool

/-- The engine object: blob registry, state record, whether an
animation-frame callback is pending (`rafId !== 0`), the abstract
raster, and the context's `alpha` creation flag. -/
structure Engine where
  blobs : Registry
  state : State
  rafPending : Bool
  surface : SurfaceState
  ctxAlpha : Bool

/-- Host environment sampled by a frame: the canvas bounding box,
`window.devicePixelRatio`, and `performance.now()`. -/
structure Env where
  rectW : ℚ
  rectH : ℚ
  dpr : ℚ
  now : ℚ

/-- `FluidOptions` (`fluid-bg.ts` lines 43–52): every option absent by
default; `background`'s inner `Option` is the explicit `null`. -/
structure FluidOptions where
  alpha : Option ℚ := none
  blurPx : Option ℚ := none
  parallaxVmax : Option ℚ := none
  fpsCap : Option ℚ := none
  composite : Option String := none
  background : Option (Option String) := none
  autoStart : Option Bool := none
  desynchronized : Option Bool := none

/-- `clamp` (`fluid-bg.ts` line 337): `Math.min(b, Math.max(a, v))`. -/
def clamp (v a b : ℚ) : ℚ := min b (max a v)

/-- JavaScript `x | 0` on a finite number: truncate toward zero, then
wrap into the signed 32-bit range. -/
def toInt32 (q : ℚ) : ℤ :=
  let t : ℤ := if 0 ≤ q then ⌊q⌋ else -⌊-q⌋
  let m := t % 4294967296
  if m < 2147483648 then m else m - 4294967296

/-- `setAlpha` (`fluid-bg.ts` lines 120–122). -/
def setAlpha (s : State) (a : ℚ) : State := { s with alpha := clamp a 0 1 }

/-- `setBlurPx` (`fluid-bg.ts` lines 123–125): `Math.max(0, px|0)`. -/
def setBlurPx (s : State) (px : ℚ) : State :=
  { s with blurPx := ((max 0 (toInt32 px) : ℤ) : ℚ) }

/-- `setParallax` (`fluid-bg.ts` lines 126–128): stored unchanged. -/
def setParallax (s : State) (v : ℚ) : State := { s with parallaxVmax := v }

/-- `setFpsCap` (`fluid-bg.ts` lines 129–131): `Math.max(0, fps|0)`. -/
def setFpsCap (s : State) (fps : ℚ) : State :=
  { s with fpsCap := ((max 0 (toInt32 fps) : ℤ) : ℚ) }

/-- `setComposite` (`fluid-bg.ts` lines 132–134). -/
def setComposite (s : State) (mode : String) : State := { s with composite := mode }

/-- `setBackground` (`fluid-bg.ts` lines 135–137): `color ?? null`. -/
def setBackground (s : State) (color : Option String) : State :=
  { s with background := color }

/-- `ensureSize` (`fluid-bg.ts` lines 194–208): sample the box and the
pixel ratio, and update the recorded logical size on change (the
physical backing-store resize is part of the raster abstraction). -/
def ensureSize (e : Engine) (env : Env) : Engine :=
  let dpr := max 1 env.dpr
  let cssW : ℚ := max 1 (⌊env.rectW⌋ : ℤ)
  let cssH : ℚ := max 1 (⌊env.rectH⌋ : ℤ)
  if cssW ≠ e.state.cssW ∨ cssH ≠ e.state.cssH ∨ dpr ≠ e.state.dpr then
    { e with state := { e.state with cssW := cssW, cssH := cssH, dpr := dpr } }
  else e

/-- `render` (`fluid-bg.ts` lines 210–296) on the raster abstraction:
an accepted frame repaints the backing store (background fill, or
transparent clear plus blob gradients); it touches no `state` field. -/
def render (e : Engine) : Engine := { e with surface := SurfaceState.frame }

/-- The frame delta (`fluid-bg.ts` line 184):
`lastFrameMs ? now - lastFrameMs : 16.7` (`0` is falsy). -/
def frameDt (s : State) (now : ℚ) : ℚ :=
  if s.lastFrameMs = 0 then 16.7 else now - s.lastFrameMs

/-- A scheduled callback at time `now` is *accepted* (renders a frame)
iff the engine is running and the frame-rate ceiling does not reject its
delta (`fluid-bg.ts` lines 185–187). -/
def frameAccepted (e : Engine) (now : ℚ) : Prop :=
  e.state.running = true ∧
  ¬(0 < e.state.fpsCap ∧ frameDt e.state now < 1000 / e.state.fpsCap)

/-- The scheduled callback `loop` (`fluid-bg.ts` lines 179–192): bail
out when stopped; otherwise immediately reschedule, then either reject
the frame (rate ceiling) or record the timestamp and render. -/
def loop (e : Engine) (env : Env) : Engine :=
  if e.state.running then
    let e1 := { e with rafPending := true }
    if 0 < e1.state.fpsCap ∧ frameDt e1.state env.now < 1000 / e1.state.fpsCap then e1
    else
      render (ensureSize { e1 with state := { e1.state with lastFrameMs := env.now } } env)
  else e

/-- `start` (`fluid-bg.ts` lines 155–160): no-op when running, else set
the running flag, reset the last-frame timestamp, and invoke the loop
synchronously. -/
def start (e : Engine) (env : Env) : Engine :=
  if e.state.running then e
  else loop { e with state := { e.state with running := true, lastFrameMs := 0 } } env

/-- `stop` (`fluid-bg.ts` lines 161–164): clear the running flag and
cancel any pending callback. -/
def stop (e : Engine) : Engine :=
  { e with state := { e.state with running := false }, rafPending := false }

/-- `destroy` (`fluid-bg.ts` lines 165–175): stop, clear the whole
backing store to transparency (unconditionally — the background fill is
not consulted), and empty the registry. -/
def destroy (e : Engine) : Engine :=
  let e1 := stop e
  { e1 with surface := SurfaceState.blank, blobs := [] }

/-- The constructor (`fluid-bg.ts` lines 84–117): populate the state
record with defaulted options, size the canvas, and auto-start unless
`autoStart === false`.  (The 2D-context-availability failure path is
outside this model: the context is assumed available.) -/
def construct (opts : FluidOptions) (env : Env) : Engine :=
  let st : State :=
    { running := false
      alpha := opts.alpha.getD 0.5
      blurPx := opts.blurPx.getD 36
      parallaxVmax := opts.parallaxVmax.getD 1.0
      fpsCap := opts.fpsCap.getD 0
      composite := opts.composite.getD "source-over"
      background := opts.background.join
      dpr := max 1 env.dpr
      cssW := 0
      cssH := 0
      lastFrameMs := 0
      startMs := env.now
      desynchronized := opts.desynchronized.getD false }
  let e0 : Engine :=
    { blobs := []
      state := st
      rafPending := false
      surface := SurfaceState.blank
      ctxAlpha := !truthyStr (opts.background.join) }
  let e1 := ensureSize e0 env
  if opts.autoStart = some false then e1 else start e1 env

/-- `ensureSize` touches only `cssW`, `cssH` and `dpr`. -/
theorem ensureSize_preserves (e : Engine) (env : Env) :
    (ensureSize e env).state.running = e.state.running ∧
    (ensureSize e env).state.alpha = e.state.alpha ∧
    (ensureSize e env).state.blurPx = e.state.blurPx ∧
    (ensureSize e env).state.parallaxVmax = e.state.parallaxVmax ∧
    (ensureSize e env).state.fpsCap = e.state.fpsCap ∧
    (ensureSize e env).state.composite = e.state.composite ∧
    (ensureSize e env).state.background = e.state.background ∧
    (ensureSize e env).state.lastFrameMs = e.state.lastFrameMs ∧
    (ensureSize e env).surface = e.surface ∧
    (ensureSize e env).blobs = e.blobs ∧
    (ensureSize e env).rafPending = e.rafPending := by
  simp only [ensureSize]
  split <;> simp

/-- Rendering a sized frame does not change the recorded last-frame
timestamp. -/
theorem render_ensureSize_lastFrameMs (e : Engine) (env : Env) :
    (render (ensureSize e env)).state.lastFrameMs = e.state.lastFrameMs := by
  simp only [render]
  exact (ensureSize_preserves e env).2.2.2.2.2.2.2.1

theorem ensureSize_running (e : Engine) (env : Env) :
    (ensureSize e env).state.running = e.state.running := (ensureSize_preserves e env).1

theorem ensureSize_alpha (e : Engine) (env : Env) :
    (ensureSize e env).state.alpha = e.state.alpha := (ensureSize_preserves e env).2.1

theorem ensureSize_blurPx (e : Engine) (env : Env) :
    (ensureSize e env).state.blurPx = e.state.blurPx := (ensureSize_preserves e env).2.2.1

theorem ensureSize_parallaxVmax (e : Engine) (env : Env) :
    (ensureSize e env).state.parallaxVmax = e.state.parallaxVmax :=
  (ensureSize_preserves e env).2.2.2.1

theorem ensureSize_fpsCap (e : Engine) (env : Env) :
    (ensureSize e env).state.fpsCap = e.state.fpsCap := (ensureSize_preserves e env).2.2.2.2.1

theorem ensureSize_composite (e : Engine) (env : Env) :
    (ensureSize e env).state.composite = e.state.composite :=
  (ensureSize_preserves e env).2.2.2.2.2.1

theorem ensureSize_background (e : Engine) (env : Env) :
    (ensureSize e env).state.background = e.state.background :=
  (ensureSize_preserves e env).2.2.2.2.2.2.1

/-- The scheduled callback never changes the configuration fields of
the state record, and never clears the running flag. -/
theorem loop_preserves (e : Engine) (env : Env) :
    (loop e env).state.running = e.state.running ∧
    (loop e env).state.alpha = e.state.alpha ∧
    (loop e env).state.blurPx = e.state.blurPx ∧
    (loop e env).state.parallaxVmax = e.state.parallaxVmax ∧
    (loop e env).state.fpsCap = e.state.fpsCap ∧
    (loop e env).state.composite = e.state.composite ∧
    (loop e env).state.background = e.state.background := by
  simp only [loop]
  split
  · split
    · simp
    · simp only [render]
      simp [ensureSize_running, ensureSize_alpha, ensureSize_blurPx,
        ensureSize_parallaxVmax, ensureSize_fpsCap, ensureSize_composite,
        ensureSize_background]
  · simp

theorem loop_running (e : Engine) (env : Env) :
    (loop e env).state.running = e.state.running := (loop_preserves e env).1

theorem loop_alpha (e : Engine) (env : Env) :
    (loop e env).state.alpha = e.state.alpha := (loop_preserves e env).2.1

theorem loop_blurPx (e : Engine) (env : Env) :
    (loop e env).state.blurPx = e.state.blurPx := (loop_preserves e env).2.2.1

theorem loop_parallaxVmax (e : Engine) (env : Env) :
    (loop e env).state.parallaxVmax = e.state.parallaxVmax := (loop_preserves e env).2.2.2.1

theorem loop_fpsCap (e : Engine) (env : Env) :
    (loop e env).state.fpsCap = e.state.fpsCap := (loop_preserves e env).2.2.2.2.1

theorem loop_composite (e : Engine) (env : Env) :
    (loop e env).state.composite = e.state.composite := (loop_preserves e env).2.2.2.2.2.1

theorem loop_background (e : Engine) (env : Env) :
    (loop e env).state.background = e.state.background := (loop_preserves e env).2.2.2.2.2.2

/-- After `start` the engine is always running. -/
theorem start_running (e : Engine) (env : Env) :
    (start e env).state.running = true := by
  simp only [start]
  split
  · assumption
  · rw [loop_running]

theorem start_alpha (e : Engine) (env : Env) :
    (start e env).state.alpha = e.state.alpha := by
  simp only [start]
  split
  · rfl
  · rw [loop_alpha]

theorem start_blurPx (e : Engine) (env : Env) :
    (start e env).state.blurPx = e.state.blurPx := by
  simp only [start]
  split
  · rfl
  · rw [loop_blurPx]

theorem start_parallaxVmax (e : Engine) (env : Env) :
    (start e env).state.parallaxVmax = e.state.parallaxVmax := by
  simp only [start]
  split
  · rfl
  · rw [loop_parallaxVmax]

theorem start_fpsCap (e : Engine) (env : Env) :
    (start e env).state.fpsCap = e.state.fpsCap := by
  simp only [start]
  split
  · rfl
  · rw [loop_fpsCap]

theorem start_composite (e : Engine) (env : Env) :
    (start e env).state.composite = e.state.composite := by
  simp only [start]
  split
  · rfl
  · rw [loop_composite]

theorem start_background (e : Engine) (env : Env) :
    (start e env).state.background = e.state.background := by
  simp only [start]
  split
  · rfl
  · rw [loop_background]

/-! ## Claim C4: the frame-rate ceiling -/

/-- C4 (confirmed): with a positive ceiling, a callback accepted while a
previous accepted frame is recorded is at least `1000/fpsCap` ms after
it; a rejected callback skips rendering but keeps the schedule alive and
the recorded timestamp unchanged; with `fpsCap = 0` every callback that
arrives while running is accepted; an accepted frame records its own
timestamp (so consecutive accepted frames are spaced by at least the
minimum interval). -/
theorem claim_C4_theorem (e : Engine) (env : Env) :
    (0 < e.state.fpsCap → e.state.lastFrameMs ≠ 0 → frameAccepted e env.now →
      1000 / e.state.fpsCap ≤ env.now - e.state.lastFrameMs) ∧
    (e.state.running = true → ¬frameAccepted e env.now →
      loop e env = { e with rafPending := true }) ∧
    (e.state.fpsCap = 0 → e.state.running = true → frameAccepted e env.now) ∧
    (frameAccepted e env.now → (loop e env).state.lastFrameMs = env.now) := by
  refine ⟨?_, ?_, ?_, ?_⟩
  · intro hcap hlast hacc
    have hno := hacc.2
    have hge : ¬(frameDt e.state env.now < 1000 / e.state.fpsCap) := fun h => hno ⟨hcap, h⟩
    have hdt : frameDt e.state env.now = env.now - e.state.lastFrameMs := by
      simp [frameDt, hlast]
    rw [hdt] at hge
    linarith [not_lt.mp hge]
  · intro hrun hnacc
    have hC : 0 < e.state.fpsCap ∧ frameDt e.state env.now < 1000 / e.state.fpsCap := by
      by_contra hC
      exact hnacc ⟨hrun, hC⟩
    simp [loop, hrun, hC]
  · intro h0 hrun
    refine ⟨hrun, ?_⟩
    rw [h0]
    simp
  · intro hacc
    obtain ⟨hrun, hno⟩ := hacc
    simp only [loop, hrun, if_true]
    rw [if_neg hno]
    rw [render_ensureSize_lastFrameMs]

/-- A concrete running engine state used by the C4 witness: ceiling 30
fps, last accepted frame at 100 ms. -/
def engC4 : Engine :=
  { blobs := []
    state :=
      { running := true, alpha := 1/2, blurPx := 36, parallaxVmax := 1, fpsCap := 30
        composite := "source-over", background := none, dpr := 1, cssW := 100
        cssH := 100, lastFrameMs := 100, startMs := 0, desynchronized := false }
    rafPending := true
    surface := SurfaceState.frame
    ctxAlpha := true }

/-- C4 (witness): the ceiling theorem applied to `engC4` and a callback
at 150 ms, which is accepted (`50 ≥ 1000/30`). -/
theorem claim_C4_witness :
    1000 / engC4.state.fpsCap ≤ (150 : ℚ) - engC4.state.lastFrameMs :=
  (claim_C4_theorem engC4 ⟨100, 100, 1, 150⟩).1 (by norm_num [engC4])
    (by norm_num [engC4])
    ⟨rfl, by norm_num [engC4, frameDt]⟩

/-! ## Claim C7: constructor defaults -/

/-- C7 (counterexample): the default composite mode stored by the
constructor is the host compositing operator `"source-over"`, not the
string `"normal"`. -/
theorem claim_C7_counterexample :
    (construct {} ⟨100, 100, 1, 0⟩).state.composite ≠ "normal" := by decide

/-- C7 (amended): constructing with an empty options object yields
`alpha = 0.5`, `blurPx = 36`, `parallaxVmax = 1.0`, `fpsCap = 0`,
`composite = "source-over"` (the host's name for the normal, non-blended
operator), a transparent (`none`) background, and — `autoStart`
defaulting to true — a running animation loop immediately after
construction. -/
theorem claim_C7_theorem (env : Env) :
    (construct {} env).state.alpha = 0.5 ∧
    (construct {} env).state.blurPx = 36 ∧
    (construct {} env).state.parallaxVmax = 1 ∧
    (construct {} env).state.fpsCap = 0 ∧
    (construct {} env).state.composite = "source-over" ∧
    (construct {} env).state.background = none ∧
    (construct {} env).state.running = true := by
  simp only [construct]
  rw [if_neg (by simp : ¬(none : Option Bool) = some false)]
  norm_num [start_running, start_alpha, start_blurPx, start_parallaxVmax,
    start_fpsCap, start_composite, start_background, ensureSize_running,
    ensureSize_alpha, ensureSize_blurPx, ensureSize_parallaxVmax,
    ensureSize_fpsCap, ensureSize_composite, ensureSize_background]

/-! ## Claim C8: destroy -/

/-- C8 (confirmed): `destroy` is total (never throws) from any engine
state, idempotent, and leaves the registry empty and the drawing
surface cleared to full transparency — unconditionally, whatever the
configured background. -/
theorem claim_C8_theorem (e : Engine) :
    destroy (destroy e) = destroy e ∧
    (destroy e).blobs = ([] : Registry) ∧
    (destroy e).surface = SurfaceState.blank := ⟨rfl, rfl, rfl⟩

/-- C8 (witness): the destroy guarantees at a concrete engine that is
running with a configured background and a populated registry. -/
theorem claim_C8_witness :
    destroy (destroy (Engine.mk [("a", materialize (toPartial blobA))]
        ⟨true, 1/2, 36, 1, 0, "source-over", some "#112233", 1, 100, 100, 50, 0, false⟩
        true SurfaceState.frame false)) =
      destroy (Engine.mk [("a", materialize (toPartial blobA))]
        ⟨true, 1/2, 36, 1, 0, "source-over", some "#112233", 1, 100, 100, 50, 0, false⟩
        true SurfaceState.frame false) :=
  (claim_C8_theorem _).1

/-! ## Claim C10: setter coercion invariants -/

/-- One facade setter invocation. -/
inductive SetterOp where
  | alpha (a : ℚ)
  | blur (px : ℚ)
  | parallax (v : ℚ)
  | fps (f : ℚ)
  | comp (mode : String)
  | bg (color : Option String)

/-- Apply one setter. -/
def applySetter (s : State) : SetterOp → State
  | .alpha a => setAlpha s a
  | .blur px => setBlurPx s px
  | .parallax v => setParallax s v
  | .fps f => setFpsCap s f
  | .comp mode => setComposite s mode
  | .bg color => setBackground s color

/-- Apply a sequence of setters. -/
def applySetters (s : State) (ops : List SetterOp) : State :=
  ops.foldl applySetter s

/-- The coercion invariant: alpha within `[0, 1]`, blur radius and
frame-rate ceiling nonnegative integers. -/
def SettersInv (s : State) : Prop :=
  0 ≤ s.alpha ∧ s.alpha ≤ 1 ∧ (∃ n : ℕ, s.blurPx = n) ∧ (∃ n : ℕ, s.fpsCap = n)

/-- C10 (confirmed): the setters coerce instead of rejecting —
`setAlpha` stores `clamp(a, 0, 1)`, `setBlurPx`/`setFpsCap` store
`max(0, a|0)` (32-bit truncation) — and consequently the coercion
invariant is preserved by any sequence of setter calls; every setter is
a total function (none throws). -/
theorem claim_C10_theorem :
    (∀ (s : State) (a : ℚ), (setAlpha s a).alpha = clamp a 0 1) ∧
    (∀ (s : State) (px : ℚ), (setBlurPx s px).blurPx = ((max 0 (toInt32 px) : ℤ) : ℚ)) ∧
    (∀ (s : State) (f : ℚ), (setFpsCap s f).fpsCap = ((max 0 (toInt32 f) : ℤ) : ℚ)) ∧
    (∀ (s : State) (ops : List SetterOp), SettersInv s → SettersInv (applySetters s ops)) := by
  refine ⟨fun s a => rfl, fun s px => rfl, fun s f => rfl, ?_⟩
  intro s ops
  induction ops generalizing s with
  | nil => exact fun h => h
  | cons op rest ih =>
    intro h
    apply ih
    obtain ⟨h1, h2, h3, h4⟩ := h
    cases op with
    | alpha a =>
      refine ⟨?_, ?_, h3, h4⟩
      · simp only [applySetter, setAlpha, clamp]
        exact le_min (by norm_num) (le_max_left 0 a)
      · simp only [applySetter, setAlpha, clamp]
        exact min_le_left 1 _
    | blur px =>
      refine ⟨h1, h2, ⟨(max 0 (toInt32 px)).toNat, ?_⟩, h4⟩
      have hn : (((max 0 (toInt32 px)).toNat : ℤ)) = max 0 (toInt32 px) :=
        Int.toNat_of_nonneg (le_max_left 0 _)
      simp only [applySetter, setBlurPx]
      exact_mod_cast hn.symm
    | parallax v => exact ⟨h1, h2, h3, h4⟩
    | fps f =>
      refine ⟨h1, h2, h3, ⟨(max 0 (toInt32 f)).toNat, ?_⟩⟩
      have hn : (((max 0 (toInt32 f)).toNat : ℤ)) = max 0 (toInt32 f) :=
        Int.toNat_of_nonneg (le_max_left 0 _)
      simp only [applySetter, setFpsCap]
      exact_mod_cast hn.symm
    | comp mode => exact ⟨h1, h2, h3, h4⟩
    | bg color => exact ⟨h1, h2, h3, h4⟩

/-- C10 (witness): the invariant survives a concrete out-of-range
setter sequence (`alpha := 5`, `blurPx := -3`, `fpsCap := 3.5`) applied
to the default-constructed state. -/
theorem claim_C10_witness :
    SettersInv (applySetters
      ⟨false, 1/2, 36, 1, 0, "source-over", none, 1, 0, 0, 0, 0, false⟩
      [SetterOp.alpha 5, SetterOp.blur (-3), SetterOp.fps (7/2)]) :=
  claim_C10_theorem.2.2.2
    ⟨false, 1/2, 36, 1, 0, "source-over", none, 1, 0, 0, 0, 0, false⟩
    [SetterOp.alpha 5, SetterOp.blur (-3), SetterOp.fps (7/2)]
    ⟨by norm_num, by norm_num, ⟨36, by norm_num⟩, ⟨0, by norm_num⟩⟩

end FluidBg
